import Mathlib

/-!
Shallow embedding of the multi-tenant Xero OAuth2 token lifecycle manager:
`src/token_storage.py` (TokenStorage), `src/xero_oauth.py` (XeroOAuth2Manager)
and the token-handling paths of the route handlers in `src/main.py`
(`xero_callback`, `get_connections`, `get_invoices`).

Time is modelled as seconds (`Nat`); `datetime.now()` becomes an explicit
`now : Nat` parameter and `datetime.now() + timedelta(seconds = s)` becomes
`now + s`.  The JSON snapshot file is modelled by `StoredFile`; a Python dict
keyed by tenant id becomes an association list (`Snapshot`) whose update
keeps the original insertion order, like a Python dict.  Network calls made
by the handlers are modelled by passing the outcome of the call (an `Except`)
as an explicit argument.
-/

/-- A token record / provider token payload, the dict shape stored per tenant.
`expires_in` and `expires_at` are optional: the provider may omit
`expires_in` (token_storage.py line 20 defaults it to 1800), and a stored
dict may lack the `expires_at` key (token_storage.py line 38 checks for it). -/
structure TokenRecord where
  access_token : String
  refresh_token : String
  token_type : String
  scope : String
  expires_in : Option Nat
  expires_at : Option Nat
deriving DecidableEq, Repr

/-- The full persisted snapshot: tenant id to token record, insertion ordered
like a Python dict serialized to JSON. -/
abbrev Snapshot := List (String × TokenRecord)

/-- Python dict read `tokens.get(k)`. -/
def dictGet (k : String) : Snapshot → Option TokenRecord
  | [] => none
  | (k₁, v) :: rest => if k₁ = k then some v else dictGet k rest

/-- Python dict write `tokens[k] = v`: replace in place when the key exists,
append otherwise. -/
def dictSet (k : String) (v : TokenRecord) : Snapshot → Snapshot
  | [] => [(k, v)]
  | (k₁, v₁) :: rest => if k₁ = k then (k, v) :: rest else (k₁, v₁) :: dictSet k v rest

/-- Python `del tokens[k]` (no-op when absent, the call sites guard with `in`). -/
def dictDel (k : String) : Snapshot → Snapshot
  | [] => []
  | (k₁, v₁) :: rest => if k₁ = k then rest else (k₁, v₁) :: dictDel k rest

/-- The keys of a snapshot, in order. -/
def dictKeys (d : Snapshot) : List String := d.map Prod.fst

/-- The state of the persisted `tokens.json` file: absent, present but not
valid JSON (the raw text kept for concreteness), or a readable snapshot. -/
inductive StoredFile where
  | missing
  | corrupt (raw : String)
  | good (snapshot : Snapshot)
deriving DecidableEq, Repr

/-- Embeds `TokenStorage._load_tokens` (token_storage.py lines 44-53): a missing file
loads as the empty dict, and any exception while reading or parsing is
swallowed by the bare `except`, also yielding the empty dict. -/
def load_tokens : StoredFile → Snapshot
  | .missing => []
  | .corrupt _ => []
  | .good s => s

/-- The expiry stamping done inside `save_token` (token_storage.py lines
19-21): `token_data[expires_at] = now + token_data.get(expires_in, 1800)`. -/
def withExpiry (token_data : TokenRecord) (now : Nat) : TokenRecord :=
  { token_data with expires_at := some (now + token_data.expires_in.getD 1800) }

/-- Embeds `TokenStorage.save_token` (token_storage.py lines 13-28): load the full
snapshot, stamp `expires_at`, set this tenant, write the whole snapshot back. -/
def save_token (tenant_id : String) (token_data : TokenRecord) (now : Nat)
    (file : StoredFile) : StoredFile :=
  .good (dictSet tenant_id (withExpiry token_data now) (load_tokens file))

/-- Embeds `TokenStorage.get_token` (token_storage.py lines 30-33). -/
def get_token (file : StoredFile) (tenant_id : String) : Option TokenRecord :=
  dictGet tenant_id (load_tokens file)

/-- Embeds `TokenStorage.is_token_expired` (token_storage.py lines 35-42): true when
the record is absent, lacks the `expires_at` key, or `now >= expires_at`. -/
def is_token_expired (file : StoredFile) (tenant_id : String) (now : Nat) : Bool :=
  match get_token file tenant_id with
  | none => true
  | some token_data =>
    match token_data.expires_at with
    | none => true
    | some e => decide (e ≤ now)

/-- Embeds `TokenStorage.clear_tokens` (token_storage.py lines 55-58). -/
def clear_tokens (_ : StoredFile) : StoredFile := .missing

/-- An HTTP error raised by a route handler (FastAPI HTTPException). -/
inductive ApiError where
  | http (status : Nat) (detail : String)
deriving DecidableEq, Repr

/-- A raw HTTP response from the provider token endpoint: status, body text,
and the JSON-decoded token payload when the body parses. -/
structure ProviderResponse where
  status : Nat
  body : String
  jsonPayload : Option TokenRecord
deriving DecidableEq, Repr

/-- The error with which `exchange_code_for_token` / `refresh_token` fail:
httpx raises `HTTPStatusError` from `raise_for_status` (carrying the
response, hence its body), a `TransportError` on connection failure, or a
decode error from `response.json()`. -/
inductive ExchangeError where
  | httpStatus (status : Nat) (body : String)
  | transport (msg : String)
  | decode
deriving DecidableEq, Repr

/-- httpx `Response.raise_for_status` (xero_oauth.py lines 44 and 60): raises
for every non-2xx status, the error carrying the response. -/
def raise_for_status (r : ProviderResponse) :
    Except ExchangeError ProviderResponse :=
  if 200 ≤ r.status ∧ r.status < 300 then .ok r
  else .error (.httpStatus r.status r.body)

/-- Embeds `XeroOAuth2Manager.exchange_code_for_token` (xero_oauth.py lines 30-45).
The POST outcome is passed in: `.error m` when the transport fails,
`.ok r` when a response came back; then `raise_for_status` and
`response.json()`. -/
def exchange_code_for_token (postResult : Except String ProviderResponse) :
    Except ExchangeError TokenRecord :=
  match postResult with
  | .error m => .error (.transport m)
  | .ok r =>
    match raise_for_status r with
    | .error e => .error e
    | .ok r₁ =>
      match r₁.jsonPayload with
      | some payload => .ok payload
      | none => .error .decode

/-- Embeds `XeroOAuth2Manager.refresh_token` (xero_oauth.py lines 47-61): same POST,
`raise_for_status`, `response.json()` pipeline as the code exchange. -/
def refresh_token (postResult : Except String ProviderResponse) :
    Except ExchangeError TokenRecord :=
  exchange_code_for_token postResult

/-- Embeds `xero_callback` (main.py lines 59-84): missing code is a 400; a failed
exchange is caught and re-raised as a 400 with the store untouched; a
successful exchange is saved under the sentinel key `temp_tenant`.
Returns the handler outcome and the resulting file state. -/
def xero_callback (code : Option String)
    (postResult : Except String ProviderResponse) (file : StoredFile)
    (now : Nat) : Except ApiError String × StoredFile :=
  match code with
  | none => (.error (.http 400 "Authorization code not provided"), file)
  | some _ =>
    match exchange_code_for_token postResult with
    | .error _ => (.error (.http 400 "OAuth callback error"), file)
    | .ok token_data =>
      (.ok token_data.access_token, save_token "temp_tenant" token_data now file)

/-- Embeds `get_connections` (main.py lines 86-124), the resolve-tenants transition.
The connections lookup outcome is passed in as the list of tenant ids.
After saving the token under every real tenant id the handler deletes the
sentinel by re-reading the snapshot and rewriting the file inline at lines
111-115 — but `main.py` never imports `json`, so the `json.dump` call at
line 115 raises `NameError` after `open(path, "w")` has already truncated
the file: the `except` clause at line 122 turns this into a 500 and the
persisted snapshot is left as an empty (unparseable) file. -/
def get_connections (file : StoredFile)
    (connectionsResult : Except String (List String)) (now : Nat) :
    Except ApiError (List String) × StoredFile :=
  match get_token file "temp_tenant" with
  | none => (.error (.http 401 "No authorization found. Please authorize first."), file)
  | some token_data =>
    match connectionsResult with
    | .error m => (.error (.http 500 m), file)
    | .ok conns =>
      let file₁ := conns.foldl (fun f c => save_token c token_data now f) file
      let tokens := load_tokens file₁
      if (dictGet "temp_tenant" tokens).isSome then
        (.error (.http 500 "NameError: name json is not defined"), .corrupt "")
      else
        (.ok conns, file₁)

/-- The per-tenant token path of `get_invoices` (main.py lines 170-181):
look the tenant up (absent is a 401), refresh once if expired (saving the
refreshed record, or failing with a 401), and hand back the access token
used for the downstream call.  The refresh outcome is passed in; the third
component counts how many refresh calls were made. -/
def get_valid_token (file : StoredFile) (tenant_id : String) (now : Nat)
    (refreshResult : Except ExchangeError TokenRecord) :
    Except ApiError String × StoredFile × Nat :=
  match get_token file tenant_id with
  | none => (.error (.http 401 "Tenant not authorized"), file, 0)
  | some token_data =>
    if is_token_expired file tenant_id now then
      match refreshResult with
      | .ok newToken =>
        (.ok newToken.access_token, save_token tenant_id newToken now file, 1)
      | .error _ => (.error (.http 401 "Failed to refresh token"), file, 1)
    else
      (.ok token_data.access_token, file, 0)

/-- Saving a sequence of (tenant, payload) pairs in order, as the loop in
`get_connections` does and as the N-concurrent-saves property serializes. -/
def saveAll (xs : List (String × TokenRecord)) (now : Nat)
    (file : StoredFile) : StoredFile :=
  xs.foldl (fun f x => save_token x.1 x.2 now f) file

/-- Sample provider payload used for concrete witnesses. -/
def sampleToken : TokenRecord :=
  { access_token := "atk-new", refresh_token := "rtk", token_type := "Bearer",
    scope := "accounting.transactions", expires_in := some 1800, expires_at := none }

/-- A stored record whose absolute expiry is the instant 50. -/
def expiredToken : TokenRecord :=
  { access_token := "atk-old", refresh_token := "rtk", token_type := "Bearer",
    scope := "accounting.transactions", expires_in := some 1800, expires_at := some 50 }

theorem dictGet_dictSet (A B : String) (v : TokenRecord) (d : Snapshot) :
    dictGet B (dictSet A v d) = if A = B then some v else dictGet B d := by
  induction d with
  | nil => simp [dictGet, dictSet]
  | cons hd tl ih =>
    obtain ⟨k₁, v₁⟩ := hd
    by_cases h₁ : k₁ = A
    · subst h₁
      by_cases h₂ : k₁ = B <;> simp [dictGet, dictSet, h₂]
    · by_cases h₂ : k₁ = B
      · subst h₂
        have hAB : A ≠ k₁ := fun h => h₁ h.symm
        simp [dictGet, dictSet, h₁, hAB]
      · simp [dictGet, dictSet, h₁, h₂, ih]

theorem dictKeys_dictSet_of_not_mem (k : String) (v : TokenRecord) (d : Snapshot)
    (h : k ∉ dictKeys d) : dictKeys (dictSet k v d) = dictKeys d ++ [k] := by
  induction d with
  | nil => simp [dictKeys, dictSet]
  | cons hd tl ih =>
    obtain ⟨k₁, v₁⟩ := hd
    simp only [dictKeys, List.map_cons, List.mem_cons] at h
    push_neg at h
    have hk₁ : k₁ ≠ k := fun hh => h.1 hh.symm
    simp only [dictSet, if_neg hk₁, dictKeys, List.map_cons, List.cons_append,
      List.cons.injEq, true_and]
    exact ih h.2

theorem dictKeys_saveAll (now : Nat) :
    ∀ (xs : List (String × TokenRecord)) (f : StoredFile),
      (dictKeys (load_tokens f) ++ xs.map Prod.fst).Nodup →
      dictKeys (load_tokens (saveAll xs now f)) =
        dictKeys (load_tokens f) ++ xs.map Prod.fst := by
  intro xs
  induction xs with
  | nil => intro f _; simp [saveAll]
  | cons x tl ih =>
    intro f h
    obtain ⟨t, p⟩ := x
    have hsplit := List.nodup_append.mp h
    have ht : t ∉ dictKeys (load_tokens f) := fun hmem =>
      hsplit.2.2 hmem (by simp)
    have hload : load_tokens (save_token t p now f)
        = dictSet t (withExpiry p now) (load_tokens f) := rfl
    have hkeys : dictKeys (load_tokens (save_token t p now f))
        = dictKeys (load_tokens f) ++ [t] := by
      rw [hload]
      exact dictKeys_dictSet_of_not_mem t (withExpiry p now) (load_tokens f) ht
    have hstep : saveAll ((t, p) :: tl) now f = saveAll tl now (save_token t p now f) := rfl
    rw [hstep, ih (save_token t p now f) (by
      rw [hkeys]
      simpa [List.append_assoc] using (List.append_cons (dictKeys (load_tokens f)) t
        (tl.map Prod.fst) ▸ h)), hkeys]
    simp [List.append_assoc]

/-- C2: for every tenant with no stored token record, the per-tenant token
path of the invoices operation fails with a 401 (NotAuthorized), attempts
no refresh call (count 0) and leaves the store unchanged. -/
theorem claim_C2 : ∀ (file : StoredFile) (t : String) (now : Nat)
    (r : Except ExchangeError TokenRecord),
    get_token file t = none →
    get_valid_token file t now r
      = (.error (.http 401 "Tenant not authorized"), file, 0) := by
  intro file t now r h
  simp [get_valid_token, h]

/-- Witness for C2 at a concrete empty store. -/
theorem claim_C2_witness :
    get_valid_token (.good []) "abc" 0 (.ok sampleToken)
      = (.error (.http 401 "Tenant not authorized"), .good [], 0) :=
  claim_C2 (.good []) "abc" 0 (.ok sampleToken) rfl

/-- C3: `is_token_expired` is true when no record exists; when the record
carries `expires_at = e` it is true exactly when `now >= e`; and for a
record saved at `t₀` with `expires_in = 1800`, it is false at `t₀ + 1799`
and true at `t₀ + 1800` (the boundary instant counts as expired). -/
theorem claim_C3 :
    (∀ (file : StoredFile) (t : String) (now : Nat),
        get_token file t = none → is_token_expired file t now = true)
    ∧ (∀ (file : StoredFile) (t : String) (now : Nat) (rec : TokenRecord) (e : Nat),
        get_token file t = some rec → rec.expires_at = some e →
        (is_token_expired file t now = true ↔ e ≤ now))
    ∧ (∀ (t₀ : Nat) (p : TokenRecord) (file : StoredFile),
        is_token_expired (save_token "abc" { p with expires_in := some 1800 } t₀ file)
          "abc" (t₀ + 1799) = false
        ∧ is_token_expired (save_token "abc" { p with expires_in := some 1800 } t₀ file)
          "abc" (t₀ + 1800) = true) := by
  refine ⟨?_, ?_, ?_⟩
  · intro file t now h
    simp [is_token_expired, h]
  · intro file t now rec e h₁ h₂
    simp [is_token_expired, h₁, h₂]
  · intro t₀ p file
    have hget : get_token (save_token "abc" { p with expires_in := some 1800 } t₀ file) "abc"
        = some (withExpiry { p with expires_in := some 1800 } t₀) := by
      simp [get_token, save_token, load_tokens, dictGet_dictSet]
    constructor
    · simp [is_token_expired, hget, withExpiry]
    · simp [is_token_expired, hget, withExpiry]

/-- Witness for C3 at concrete stores and instants. -/
theorem claim_C3_witness :
    is_token_expired (.good []) "abc" 0 = true
    ∧ is_token_expired (.good [("abc", expiredToken)]) "abc" 100 = true :=
  ⟨claim_C3.1 (.good []) "abc" 0 rfl,
   (claim_C3.2.1 (.good [("abc", expiredToken)]) "abc" 100 expiredToken 50 rfl rfl).mpr
     (by omega)⟩

/-- C10: a stored record that lacks the `expires_at` field entirely is
treated as expired (no error is raised). -/
theorem claim_C10 : ∀ (file : StoredFile) (t : String) (now : Nat) (rec : TokenRecord),
    get_token file t = some rec → rec.expires_at = none →
    is_token_expired file t now = true := by
  intro file t now rec h₁ h₂
  simp [is_token_expired, h₁, h₂]

/-- Witness for C10: `sampleToken` carries no `expires_at`. -/
theorem claim_C10_witness :
    is_token_expired (.good [("abc", sampleToken)]) "abc" 0 = true :=
  claim_C10 (.good [("abc", sampleToken)]) "abc" 0 sampleToken rfl rfl

/-- C8: a corrupt (unreadable) persisted snapshot behaves as an empty store:
every `get_token` is absent, every `is_token_expired` is true, and a
subsequent `save_token` succeeds starting from the empty map. -/
theorem claim_C8 : ∀ (raw t : String) (p : TokenRecord) (now : Nat),
    get_token (.corrupt raw) t = none
    ∧ is_token_expired (.corrupt raw) t now = true
    ∧ save_token t p now (.corrupt raw) = .good [(t, withExpiry p now)] := by
  intro raw t p now
  exact ⟨rfl, rfl, rfl⟩

/-- C1: on the per-tenant token path of the invoices operation, a stored
record whose `expires_at` lies in the past triggers exactly one refresh
call; on refresh success the refreshed record is saved back and the new
access token is returned (on refresh failure the single call still counts
and the store is unchanged).  A record whose `expires_at` lies in the
future triggers zero refresh calls and the original access token is
returned with the store unchanged. -/
theorem claim_C1 : ∀ (file : StoredFile) (t : String) (now : Nat)
    (rec : TokenRecord) (e : Nat) (newTok : TokenRecord),
    get_token file t = some rec → rec.expires_at = some e →
    ((e < now →
        get_valid_token file t now (.ok newTok)
          = (.ok newTok.access_token, save_token t newTok now file, 1)
        ∧ ∀ err, get_valid_token file t now (.error err)
          = (.error (.http 401 "Failed to refresh token"), file, 1))
      ∧ (now < e → ∀ r, get_valid_token file t now r
          = (.ok rec.access_token, file, 0))) := by
  intro file t now rec e newTok h₁ h₂
  constructor
  · intro hlt
    have hexp : is_token_expired file t now = true := by
      simp [is_token_expired, h₁, h₂]
      omega
    constructor
    · simp [get_valid_token, h₁, hexp]
    · intro err
      simp [get_valid_token, h₁, hexp]
  · intro hlt r
    have hexp : is_token_expired file t now = false := by
      simp [is_token_expired, h₁, h₂]
      omega
    simp [get_valid_token, h₁, hexp]

/-- Witness for C1: an expired record at instant 100 with a successful
refresh, and a live record at instant 10 with an arbitrary refresh outcome. -/
theorem claim_C1_witness :
    get_valid_token (.good [("abc", expiredToken)]) "abc" 100 (.ok sampleToken)
      = (.ok sampleToken.access_token,
         save_token "abc" sampleToken 100 (.good [("abc", expiredToken)]), 1)
    ∧ get_valid_token (.good [("abc", expiredToken)]) "abc" 10 (.ok sampleToken)
      = (.ok expiredToken.access_token, .good [("abc", expiredToken)], 0) :=
  ⟨((claim_C1 (.good [("abc", expiredToken)]) "abc" 100 expiredToken 50 sampleToken
      rfl rfl).1 (by omega)).1,
   (claim_C1 (.good [("abc", expiredToken)]) "abc" 10 expiredToken 50 sampleToken
      rfl rfl).2 (by omega) (.ok sampleToken)⟩

/-- C5 counterexample: running the resolve-tenants handler with the sentinel
key already deleted is not an error-free no-op — it errors (HTTP 401),
refuting the claim as stated. -/
theorem claim_C5_counterexample :
    (get_connections (.good [("tid-1", expiredToken)]) (.ok ["tid-1"]) 0).1
      = .error (.http 401 "No authorization found. Please authorize first.") := rfl

/-- C5 (amended): running `get_connections` again once the sentinel key is
gone performs no store mutation, but instead of silently succeeding it
fails with HTTP 401 before any connections lookup or save is attempted. -/
theorem claim_C5 : ∀ (file : StoredFile) (conns : Except String (List String)) (now : Nat),
    get_token file "temp_tenant" = none →
    get_connections file conns now
      = (.error (.http 401 "No authorization found. Please authorize first."), file) := by
  intro file conns now h
  simp [get_connections, h]

/-- Witness for C5 at a concrete sentinel-free store. -/
theorem claim_C5_witness :
    get_connections (.good [("tid-1", expiredToken)]) (.ok ["tid-1"]) 0
      = (.error (.http 401 "No authorization found. Please authorize first."),
         .good [("tid-1", expiredToken)]) :=
  claim_C5 (.good [("tid-1", expiredToken)]) (.ok ["tid-1"]) 0 rfl

/-- C4 (code evaluation): after the sentinel record is stored, resolving two
tenants does not leave two records and zero sentinels — `main.py` never
imports `json`, so the inline sentinel-deletion write raises `NameError`
after truncating the file: the handler returns HTTP 500 and the final
snapshot loads as empty (zero entries). -/
theorem claim_C4_code :
    get_connections (.good [("temp_tenant", expiredToken)]) (.ok ["tid-1", "tid-2"]) 100
      = (.error (.http 500 "NameError: name json is not defined"), .corrupt "")
    ∧ load_tokens (get_connections (.good [("temp_tenant", expiredToken)])
        (.ok ["tid-1", "tid-2"]) 100).2 = [] :=
  ⟨rfl, rfl⟩

/-- C6: `save_token` merges into the full snapshot — saving tenant A leaves
any other tenant B unchanged — and saving N distinct tenants into an empty
store yields a snapshot whose keys are exactly those N tenants, none lost. -/
theorem claim_C6 :
    (∀ (A B : String) (p : TokenRecord) (now : Nat) (file : StoredFile),
        A ≠ B → get_token (save_token A p now file) B = get_token file B)
    ∧ (∀ (xs : List (String × TokenRecord)) (now : Nat),
        (xs.map Prod.fst).Nodup →
        dictKeys (load_tokens (saveAll xs now (.good []))) = xs.map Prod.fst) := by
  constructor
  · intro A B p now file hAB
    simp [get_token, save_token, load_tokens, dictGet_dictSet, hAB]
  · intro xs now h
    have := dictKeys_saveAll now xs (.good []) (by simpa [load_tokens, dictKeys] using h)
    simpa [load_tokens, dictKeys] using this

/-- Witness for C6 at two concrete distinct tenants. -/
theorem claim_C6_witness :
    get_token (save_token "A" sampleToken 0 (.good [("B", expiredToken)])) "B"
      = get_token (.good [("B", expiredToken)]) "B"
    ∧ dictKeys (load_tokens (saveAll [("A", sampleToken), ("B", sampleToken)] 0 (.good [])))
      = ["A", "B"] :=
  ⟨claim_C6.1 "A" "B" sampleToken 0 (.good [("B", expiredToken)]) (by decide),
   claim_C6.2 [("A", sampleToken), ("B", sampleToken)] 0 (by decide)⟩

/-- C7: `save_token` always stores, under the saved tenant, the payload
stamped with an absolute `expires_at = now + expires_in` (1800 when the
payload omits `expires_in`); and it preserves the invariant that every
persisted record carries some `expires_at`. -/
theorem claim_C7 : ∀ (file : StoredFile) (t : String) (p : TokenRecord) (now : Nat),
    get_token (save_token t p now file) t = some (withExpiry p now)
    ∧ (withExpiry p now).expires_at = some (now + p.expires_in.getD 1800)
    ∧ (∀ (u : String) (rec : TokenRecord),
        (∀ r₀, get_token file u = some r₀ → r₀.expires_at.isSome) →
        get_token (save_token t p now file) u = some rec →
        rec.expires_at.isSome) := by
  intro file t p now
  refine ⟨?_, rfl, ?_⟩
  · simp [get_token, save_token, load_tokens, dictGet_dictSet]
  · intro u rec hold hget
    have : dictGet u (dictSet t (withExpiry p now) (load_tokens file))
        = if t = u then some (withExpiry p now) else dictGet u (load_tokens file) :=
      dictGet_dictSet t u (withExpiry p now) (load_tokens file)
    rw [show get_token (save_token t p now file) u
        = dictGet u (dictSet t (withExpiry p now) (load_tokens file)) from rfl, this] at hget
    by_cases htu : t = u
    · rw [if_pos htu] at hget
      cases hget
      simp [withExpiry]
    · rw [if_neg htu] at hget
      exact hold rec hget

/-- Witness for C7: the record just saved carries a computed `expires_at`. -/
theorem claim_C7_witness : (withExpiry sampleToken 5).expires_at.isSome := by
  refine (claim_C7 (.good []) "t" sampleToken 5).2.2 "t" (withExpiry sampleToken 5) ?_ ?_
  · intro r₀ h
    simp [get_token, load_tokens, dictGet] at h
  · exact (claim_C7 (.good []) "t" sampleToken 5).1

/-- C9: the code exchange fails with an error carrying the provider response
body on any non-2xx status, fails on transport errors, and in either case
the callback handler returns HTTP 400 with the token store unchanged (the
sentinel record is written only after a successful exchange). -/
theorem claim_C9 : ∀ (r : ProviderResponse) (m c : String) (file : StoredFile) (now : Nat),
    ¬(200 ≤ r.status ∧ r.status < 300) →
    exchange_code_for_token (.ok r) = .error (.httpStatus r.status r.body)
    ∧ xero_callback (some c) (.ok r) file now
      = (.error (.http 400 "OAuth callback error"), file)
    ∧ exchange_code_for_token (.error m) = .error (.transport m)
    ∧ xero_callback (some c) (.error m) file now
      = (.error (.http 400 "OAuth callback error"), file) := by
  intro r m c file now h
  have hex : exchange_code_for_token (.ok r) = .error (.httpStatus r.status r.body) := by
    simp [exchange_code_for_token, raise_for_status, h]
  exact ⟨hex, by simp [xero_callback, hex], rfl, rfl⟩

/-- A provider response rejecting the exchange with HTTP 400. -/
def badResponse : ProviderResponse :=
  { status := 400, body := "invalid_grant", jsonPayload := none }

/-- Witness for C9 at a concrete HTTP 400 provider response. -/
theorem claim_C9_witness :
    exchange_code_for_token (.ok badResponse)
      = .error (.httpStatus 400 "invalid_grant")
    ∧ xero_callback (some "bad-code") (.ok badResponse) (.good []) 0
      = (.error (.http 400 "OAuth callback error"), .good []) := by
  have h := claim_C9 badResponse "down" "bad-code" (.good []) 0 (by decide)
  exact ⟨h.1, h.2.1⟩
